import Mathlib

/-!
# Verification of the Cynix token-gated access-control layer

Shallow embedding of the access-control, caching, rate-limiting and
credential-verification logic of the Cynix repository:

* `blockchain/token.py` — staking-account byte parsing and access-level
  evaluation (`CynixToken.check_access_level`, `_parse_staking_data`,
  `_get_staking_info`);
* `services/data_access.py` — the cached data-access service
  (`DataAccessService.get_raw_data`, `get_analytics_data`,
  `_generate_cache_key`, `_log_data_access`);
* `api/routes.py` — the `GET /api/v1/data/\x7bdata_type\x7d` route handler
  (`get_data`);
* `api/middleware.py` — the fixed-window rate limiter (`RateLimiter.dispatch`)
  and credential verification (`verify_api_key`).

Python integers are modelled as `Int` (or `Nat` where the source value is a
byte or a counter), Python dicts used as association maps are modelled as
association lists with first-match lookup, and raised/caught exceptions are
modelled with `Except` / explicit error constructors.
-/

set_option autoImplicit false

namespace Cynix

/-! ## Association-list primitive (models Python dict / Redis key lookup) -/

/-- First-match lookup in an association list.  Models a Python dict lookup
and a Redis `GET`: insertion is modelled by prepending, so the most recent
binding for a key wins, which matches overwrite semantics. -/
def lookupA {α β : Type} [DecidableEq α] : List (α × β) → α → Option β
  | [], _ => none
  | (k, v) :: rest, key => if k = key then some v else lookupA rest key

theorem lookupA_nil {α β : Type} [DecidableEq α] (key : α) :
    lookupA ([] : List (α × β)) key = none := rfl

theorem lookupA_cons_self {α β : Type} [DecidableEq α]
    (k : α) (v : β) (rest : List (α × β)) :
    lookupA ((k, v) :: rest) k = some v := by
  simp [lookupA]

theorem lookupA_cons_ne {α β : Type} [DecidableEq α]
    (k key : α) (v : β) (rest : List (α × β)) (h : k ≠ key) :
    lookupA ((k, v) :: rest) key = lookupA rest key := by
  simp [lookupA, h]

/-! ## Staking-account byte parsing (`blockchain/token.py`, lines 119–125) -/

/-- Python slice `data[a:b]` on a bytes value of length `≥ 0`: the available
bytes between positions `a` and `b`, silently truncated when the data is too
short (Python slicing never raises). -/
def pySlice (data : List Nat) (a b : Nat) : List Nat :=
  (data.drop a).take (b - a)

/-- Python `int.from_bytes(bs, "little")`: little-endian interpretation;
`int.from_bytes(b"", "little") = 0`. -/
def intFromBytesLE : List Nat → Nat
  | [] => 0
  | b :: rest => b + 256 * intFromBytesLE rest

/-- Result of `CynixToken._parse_staking_data`. -/
structure StakingData where
  amount : Nat
  start_time : Nat
  last_claim : Nat
  deriving DecidableEq, Repr

/-- `CynixToken._parse_staking_data` (token.py lines 119–125): fixed layout
`amount = data[0:8]`, `start_time = data[8:16]`, `last_claim = data[16:24]`,
each little-endian.  Total on every input: Python slicing truncates short
data silently and `int.from_bytes` accepts the truncated slice. -/
def parse_staking_data (data : List Nat) : StakingData :=
  { amount := intFromBytesLE (pySlice data 0 8)
    start_time := intFromBytesLE (pySlice data 8 16)
    last_claim := intFromBytesLE (pySlice data 16 24) }

/-- `CynixToken._get_staking_info` (token.py lines 91–106), abstracted over
the RPC read: `acct` is `staking_account.value.data` when the derived staking
account exists, `none` when it is absent (or the RPC call raised, in which
case the `except` returns `None`).  When the account exists its bytes are
parsed; `_parse_staking_data` is total, so the `except Exception` branch
never fires for short data. -/
def get_staking_info (acct : Option (List Nat)) : Option StakingData :=
  match acct with
  | none => none
  | some data => some (parse_staking_data data)

/-! ## Access evaluation (`blockchain/token.py`, lines 22–56) -/

/-- The `access_levels` dict of `check_access_level`. -/
structure AccessLevels where
  alpha_access : Bool
  raw_data_access : Bool
  api_access : Bool
  governance_access : Bool
  deriving DecidableEq, Repr

/-- The tier thresholds of token.py lines 48–53:
`alpha_access = total_tokens >= 1000`, `raw_data_access = staked_amount >= 5000`,
`api_access = total_tokens >= 10000`, `governance_access = total_tokens >= 50000`. -/
def access_levels (total_tokens staked_amount : Int) : AccessLevels :=
  { alpha_access := decide (1000 ≤ total_tokens)
    raw_data_access := decide (5000 ≤ staked_amount)
    api_access := decide (10000 ≤ total_tokens)
    governance_access := decide (50000 ≤ total_tokens) }

/-- The success payload of `check_access_level`. -/
structure AccessInfo where
  total_tokens : Int
  staked_amount : Int
  access_levels : AccessLevels
  deriving DecidableEq, Repr

/-- The pure core of `CynixToken.check_access_level` (token.py lines 30–54),
abstracted over the two RPC reads: `balances` is the list of token-account
amounts returned by `get_token_accounts_by_owner` for the configured mint,
and `stakingData` is the raw staking-account bytes (as in
`get_staking_info`).  `total_balance` is the loop sum; `staked_amount` is
`staking_info["amount"]` when a staking account exists, else `0`;
`total_tokens = total_balance + staked_amount` (line 43). -/
def check_access_level_pure (balances : List Int) (stakingData : Option (List Nat)) :
    AccessInfo :=
  let total_balance : Int := balances.sum
  let staked_amount : Int :=
    match get_staking_info stakingData with
    | none => 0
    | some s => (s.amount : Int)
  let total_tokens : Int := total_balance + staked_amount
  { total_tokens := total_tokens
    staked_amount := staked_amount
    access_levels := access_levels total_tokens staked_amount }

/-! ## Cached data-access service (`services/data_access.py`) -/

/-- Query parameters (`params`): a JSON object, modelled as an association
list of string keys and string-rendered values. -/
def Params : Type := List (String × String)

instance : BEq Params := inferInstanceAs (BEq (List (String × String)))
instance : DecidableEq Params := inferInstanceAs (DecidableEq (List (String × String)))

/-- A JSON-object payload (`Dict[str, Any]`), modelled as a flat association
list.  Only the presence/value of the `error` key is ever inspected by the
code under verification; the cache stores and returns payloads through a
`json.dumps` / `json.loads` round trip, which is the identity at this level. -/
def Payload : Type := List (String × String)

instance : BEq Payload := inferInstanceAs (BEq (List (String × String)))
instance : DecidableEq Payload := inferInstanceAs (DecidableEq (List (String × String)))

/-- Result of `DataAccessService.get_raw_data`: either the dict
`\x7b"error": msg\x7d` or a data payload. -/
inductive DataResult where
  | err (msg : String)
  | payload (p : Payload)
  deriving DecidableEq

/-- Python `"error" in result` (routes.py line 126). -/
def DataResult.hasErrorKey : DataResult → Bool
  | .err _ => true
  | .payload p => p.any (fun kv => kv.1 == "error")

/-- Python `result["error"]` (routes.py line 129), on results whose
`hasErrorKey` holds. -/
def DataResult.errValue : DataResult → String
  | .err m => m
  | .payload p => (lookupA p "error").getD ""

/-- Insertion sort of parameters by key: models `sort_keys=True` in
`json.dumps(params, sort_keys=True)` (data_access.py line 159). -/
def insertParamSorted (kv : String × String) : List (String × String) → List (String × String)
  | [] => [kv]
  | x :: xs => if kv.1 ≤ x.1 then kv :: x :: xs else x :: insertParamSorted kv xs

def sortParams : List (String × String) → List (String × String)
  | [] => []
  | x :: xs => insertParamSorted x (sortParams xs)

/-- `DataAccessService._generate_cache_key` (data_access.py lines 152–164).
The source renders the string `cynix:raw:dtype` (no or empty params — both
are falsy in Python) or `cynix:raw:dtype:dumps` with the params dumped with
sorted keys; we model the key as the pair that string injectively encodes. -/
def generate_cache_key (data_type : String) (params : Option Params) :
    String × List (String × String) :=
  match params with
  | none => (data_type, [])
  | some ps => if ps.isEmpty then (data_type, []) else (data_type, sortParams ps)

/-- One entry of the `cynix:access_logs` list
(`DataAccessService._log_data_access`, lines 166–184): wallet, data type,
params as given, and the timestamp. -/
structure LogEntry where
  wallet_address : String
  data_type : String
  params : Option Params
  timestamp : Int
  deriving DecidableEq

/-- On-chain state backing one wallet: its token-account amounts for the
configured mint, and the raw bytes of its derived staking account when that
account exists. -/
structure ChainWallet where
  balances : List Int
  stakingData : Option (List Nat)
  deriving DecidableEq

/-- State threaded through the service: the chain (read by
`check_access_level`), the Redis cache with per-key expiry instants, the
`cynix:access_logs` list, the stored metric data points (read by the
analytics path), and — as instrumentation — the list of fetcher invocations
performed. -/
structure ServiceState where
  chain : List (String × ChainWallet)
  chainError : Option String
  cache : List ((String × List (String × String)) × (Payload × Int))
  accessLogs : List LogEntry
  metrics : List (String × List (Int × Int))
  fetchCalls : List (String × Params)
  deriving DecidableEq

/-- `CynixToken.check_access_level` over the modelled chain state: on an RPC
failure the `except` branch (token.py lines 55–56) returns the error dict;
otherwise the wallet's token accounts and staking bytes are read and the
pure evaluation applies.  A valid wallet with no accounts yields an empty
balance list. -/
def check_access_level (st : ServiceState) (wallet_address : String) :
    Except String AccessInfo :=
  match st.chainError with
  | some e => .error e
  | none =>
      let cw := (lookupA st.chain wallet_address).getD ⟨[], none⟩
      .ok (check_access_level_pure cw.balances cw.stakingData)

/-- Redis `GET` of a cache key with `SETEX`-style expiry: the stored payload
is returned while `now` is before the expiry instant. -/
def cacheGet (cache : List ((String × List (String × String)) × (Payload × Int)))
    (key : String × List (String × String)) (now : Int) : Option Payload :=
  match lookupA cache key with
  | none => none
  | some (p, expiresAt) => if now < expiresAt then some p else none

/-- The set of registered fetchers of `_fetch_raw_data`
(data_access.py lines 111–115). -/
def fetchable (data_type : String) : Bool :=
  ["github", "twitter", "blockchain"].contains data_type

/-- `DataAccessService.get_raw_data` (data_access.py lines 24–66).

`fetch` stands in for the fetcher bodies `_fetch_github_data`,
`_fetch_twitter_data`, `_fetch_blockchain_data`, which are dispatched at
line 111–120 but absent from the repository source; modelled from the spec
as opaque successful fetches of the requested payload (`params or \x7b\x7d`
passes `[]` when `params` is `None`).

Control flow of the source, in order: access check (early error return on
missing `raw_data_access`); cache read (early return of the cached payload
— with no access-log append); fetch (a `ValueError` for an unknown
`data_type` is caught by the enclosing `except` and returned as an error
dict, with nothing cached); `setex` with `cache_ttl = 300`; access-log
append (`lpush` then `ltrim 0 9999`, i.e. keep the newest 10000). -/
def get_raw_data (fetch : String → Params → Payload) (st : ServiceState)
    (wallet_address data_type : String) (params : Option Params) (now : Int) :
    DataResult × ServiceState :=
  match check_access_level st wallet_address with
  | .error _ =>
      -- `access_info["access_levels"]` raises `KeyError` on the error dict,
      -- caught by the outer `except Exception` → error dict with the
      -- `str(KeyError)` rendering of the missing key.
      (.err "'access_levels'", st)
  | .ok info =>
      if info.access_levels.raw_data_access = false then
        (.err "Insufficient token stake for raw data access", st)
      else
        let key := generate_cache_key data_type params
        match cacheGet st.cache key now with
        | some cached => (.payload cached, st)
        | none =>
            if fetchable data_type then
              let data := fetch data_type (params.getD [])
              { fst := .payload data
                snd :=
                  { st with
                    fetchCalls := (data_type, params.getD []) :: st.fetchCalls
                    cache := (key, (data, now + 300)) :: st.cache
                    accessLogs :=
                      (⟨wallet_address, data_type, params, now⟩ :: st.accessLogs).take 10000 } }
            else
              (.err ("Unsupported data type: " ++ data_type), st)

/-- A FastAPI/Starlette `HTTPException`. -/
structure HTTPExc where
  status : Nat
  detail : String
  headers : List (String × String)
  deriving DecidableEq

/-- Starlette `str(HTTPException)`: `f"\x7bstatus_code\x7d: \x7bdetail\x7d"`. -/
def strOfHTTPExc (e : HTTPExc) : String :=
  toString e.status ++ ": " ++ e.detail

/-- The `GET /api/v1/data/\x7bdata_type\x7d` handler `get_data`
(routes.py lines 106–137), after the `verify_api_key` dependency has
succeeded.  The handler calls `get_raw_data`; a result with an `error` key
raises `HTTPException(403, result["error"])` — but that raise sits inside
the handler's own `try`, whose `except Exception` catches it
(`fastapi.HTTPException` subclasses `Exception`) and re-raises
`HTTPException(500, str(e))`. -/
def get_data (fetch : String → Params → Payload) (st : ServiceState)
    (data_type wallet_address : String) (params : Option Params) (now : Int) :
    Except HTTPExc Payload × ServiceState :=
  let res := get_raw_data fetch st wallet_address data_type params now
  if res.1.hasErrorKey then
    (.error ⟨500, strOfHTTPExc ⟨403, res.1.errValue, []⟩, []⟩, res.2)
  else
    match res.1 with
    | .payload p => (.ok p, res.2)
    | .err m => (.error ⟨500, strOfHTTPExc ⟨403, m, []⟩, []⟩, res.2)

/-! ## Analytics path (`services/data_access.py`, lines 68–150) -/

/-- Modelled from the spec: `_get_metric_data_points` is called by
`_aggregate_metric` (data_access.py line 130) with `(metric, start_time,
end_time)` but its body is absent from the repository source; per spec §4.5
it reads the stored data points for the metric within the requested range.
Note its call signature takes no wallet and no chain state. -/
def get_metric_data_points (metrics : List (String × List (Int × Int)))
    (metric : String) (startT endT : Int) : List (Int × Int) :=
  ((lookupA metrics metric).getD []).filter
    (fun p => decide (startT ≤ p.1) && decide (p.1 ≤ endT))

/-- Modelled from the spec: `_aggregate_by_interval` (called at
data_access.py line 145) is absent from the repository source; per spec
§4.5 it produces the ordered sequence of `(bucket_start, aggregated_value)`
covering the span, empty buckets included with a defined default (`0`). -/
def aggregate_by_interval (points : List (Int × Int)) (startT endT interval : Int) :
    List (Int × Int) :=
  (List.range (((endT - startT).toNat + interval.toNat - 1) / interval.toNat)).map
    (fun i =>
      let b := startT + (i : Int) * interval
      (b, ((points.filter (fun p => decide (b ≤ p.1) && decide (p.1 < b + interval))).map
            Prod.snd).sum))

/-- `DataAccessService._aggregate_metric` (data_access.py lines 122–150):
interval selection from the source (span ≤ 1 day → 1-hour buckets, ≤ 7 days
→ 1-day buckets, else 7-day buckets), over the spec-modelled leaves. -/
def aggregate_metric (metrics : List (String × List (Int × Int)))
    (metric : String) (startT endT : Int) : List (Int × Int) :=
  let points := get_metric_data_points metrics metric startT endT
  let diff := endT - startT
  let interval : Int :=
    if diff ≤ 86400 then 3600 else if diff ≤ 604800 then 86400 else 604800
  aggregate_by_interval points startT endT interval

/-- Result of `get_analytics_data`: the error dict or the
`\x7bmetric, timeframe, data\x7d` dict. -/
inductive AnalyticsResult where
  | err (msg : String)
  | ok (metric timeframe : String) (data : List (Int × Int))
  deriving DecidableEq

/-- `DataAccessService.get_analytics_data` (data_access.py lines 68–103).
`time_ranges` maps `24h`/`7d`/`30d` to 1/7/30 days; any other timeframe is
the `Invalid timeframe` error.  `end_time = utcnow()` is the `now`
parameter.  The `wallet_address` argument is accepted and never used; no
access check is performed (contrast `get_raw_data`). -/
def get_analytics_data (st : ServiceState) (wallet_address metric : String)
    (timeframe : String) (now : Int) : AnalyticsResult :=
  if timeframe = "24h" ∨ timeframe = "7d" ∨ timeframe = "30d" then
    let span : Int :=
      if timeframe = "24h" then 86400 else if timeframe = "7d" then 604800 else 2592000
    .ok metric timeframe (aggregate_metric st.metrics metric (now - span) now)
  else
    .err "Invalid timeframe"

/-! ## Rate limiter (`api/middleware.py`, lines 13–55) -/

/-- An HTTP response as seen by the middleware: the inner status plus a
header map (assignment `response.headers[k] = v` overwrites). -/
structure HttpResponse where
  status : Nat
  headers : List (String × String)
  deriving DecidableEq

/-- `response.headers[k] = v`. -/
def setHeader (r : HttpResponse) (k v : String) : HttpResponse :=
  { r with headers := (k, v) :: r.headers.filter (fun kv => decide (kv.1 ≠ k)) }

/-- State of the shared Redis counter store: window counters keyed by
`(client_id, window_index)` — the source renders this pair as the string
`ratelimit:client:window` — plus the expiry instants set by `EXPIRE`. -/
structure RLState where
  counters : List ((String × Nat) × Nat)
  expiries : List ((String × Nat) × Nat)
  deriving DecidableEq

/-- The window key of middleware.py line 30: client identifier and
`current // window` with `window = 60`. -/
def windowKey (client_id : String) (now : Nat) : String × Nat :=
  (client_id, now / 60)

/-- Redis `INCR`: increments the key (absent keys count as 0) and returns
the new value. -/
def redisIncr (counters : List ((String × Nat) × Nat)) (k : String × Nat) :
    Nat × List ((String × Nat) × Nat) :=
  let newVal := (lookupA counters k).getD 0 + 1
  (newVal, (k, newVal) :: counters)

/-- `RateLimiter.dispatch` (middleware.py lines 24–55) with
`rate_limit = 100`, `window = 60`.  In source order: `INCR` the window key;
`EXPIRE` it when the count became 1; raise `HTTPException(429)` when the
count exceeds the limit (note: before any header is attached); otherwise
run the inner handler (`inner` is its response) and set the three
`X-RateLimit-*` headers.  `max(0, 100 - request_count)` coincides with
truncated `Nat` subtraction.  Returns the outcome, the post-increment
count, and the store state. -/
def rateLimiterDispatch (st : RLState) (client_id : String) (now : Nat)
    (inner : HttpResponse) : Except HTTPExc HttpResponse × Nat × RLState :=
  let key := windowKey client_id now
  let r := redisIncr st.counters key
  let st' : RLState :=
    { counters := r.2
      expiries := if r.1 = 1 then (key, now + 60) :: st.expiries else st.expiries }
  if 100 < r.1 then
    (.error ⟨429, "Rate limit exceeded", []⟩, r.1, st')
  else
    let resp :=
      setHeader
        (setHeader (setHeader inner "X-RateLimit-Limit" (toString 100))
          "X-RateLimit-Remaining" (toString (100 - r.1)))
        "X-RateLimit-Reset" (toString (now / 60 * 60 + 60))
    (.ok resp, r.1, st')

/-- The headers carried by the outcome: for a raised `HTTPException`,
FastAPI renders its `headers` argument (none is passed at line 40–43). -/
def outcomeHeaders : Except HTTPExc HttpResponse → List (String × String)
  | .error e => e.headers
  | .ok r => r.headers

/-- Whether the request was admitted (no 429 raised). -/
def admitted (o : Except HTTPExc HttpResponse × Nat × RLState) : Bool :=
  match o.1 with
  | .ok _ => true
  | .error _ => false

/-- `k` successive requests by the same client in the same window, starting
from store state `st`. -/
def rlIterate (client_id : String) (now : Nat) (st : RLState) : Nat → RLState
  | 0 => st
  | k + 1 => (rateLimiterDispatch (rlIterate client_id now st k) client_id now ⟨200, []⟩).2.2

/-! ## Credential verification (`api/middleware.py`, lines 58–83) -/

/-- The claims carried by an API key. -/
structure TokenPayload where
  wallet_address : String
  exp : Int
  deriving DecidableEq

/-- An API key as presented for verification: its payload plus whether its
HS256 signature verifies against the configured secret. -/
structure ApiToken where
  payload : TokenPayload
  sigValid : Bool
  deriving DecidableEq

/-- The PyJWT errors relevant here; both subclass `jwt.InvalidTokenError`. -/
inductive JwtError where
  | invalidSignature
  | expiredSignature
  deriving DecidableEq

/-- Model of PyJWT `jwt.decode(api_key, "", algorithms=["HS256"])` with
default options (middleware.py lines 64–68): the signature is verified
(failure raises `InvalidSignatureError`), then the registered claims are
validated — an `exp` claim not in the future raises
`ExpiredSignatureError`.  Both are subclasses of `jwt.InvalidTokenError`. -/
def jwt_decode (tok : ApiToken) (now : Int) : Except JwtError TokenPayload :=
  if tok.sigValid = false then .error .invalidSignature
  else if tok.payload.exp ≤ now then .error .expiredSignature
  else .ok tok.payload

/-- `verify_api_key` (middleware.py lines 58–83): decode the key; on any
`jwt.InvalidTokenError` raise `HTTPException(401, "Invalid API key")`;
after a successful decode, the manual expiry check raises
`HTTPException(401, "API key expired")` (an `HTTPException` is not an
`InvalidTokenError`, so it propagates); otherwise return
`payload["wallet_address"]`. -/
def verify_api_key (tok : ApiToken) (now : Int) : Except HTTPExc String :=
  match jwt_decode tok now with
  | .error _ => .error ⟨401, "Invalid API key", []⟩
  | .ok payload =>
      if payload.exp < now then .error ⟨401, "API key expired", []⟩
      else .ok payload.wallet_address

/-- Whether an analytics result is a served `\x7bmetric, timeframe, data\x7d`
payload (as opposed to an error dict). -/
def AnalyticsResult.isServed : AnalyticsResult → Bool
  | .ok _ _ _ => true
  | .err _ => false

/-! ## Concrete chain constants used in scenarios -/

/-- 24 staking-account bytes encoding `amount = 200`. -/
def stakeBytes200 : List Nat :=
  [200, 0, 0, 0, 0, 0, 0, 0, 0, 0, 0, 0, 0, 0, 0, 0, 0, 0, 0, 0, 0, 0, 0, 0]

/-- 24 staking-account bytes encoding `amount = 6000` (`6000 = 23·256 + 112`). -/
def stakeBytes6000 : List Nat :=
  [112, 23, 0, 0, 0, 0, 0, 0, 0, 0, 0, 0, 0, 0, 0, 0, 0, 0, 0, 0, 0, 0, 0, 0]

/-! ## Helper lemmas -/

theorem check_access_level_pure_levels (b : List Int) (s : Option (List Nat)) :
    (check_access_level_pure b s).access_levels
      = access_levels (check_access_level_pure b s).total_tokens
          (check_access_level_pure b s).staked_amount := rfl

theorem intFromBytesLE_lt (bs : List Nat) (hb : ∀ b ∈ bs, b < 256) :
    intFromBytesLE bs < 256 ^ bs.length := by
  induction bs with
  | nil => simp [intFromBytesLE]
  | cons b rest ih =>
      have hb1 : b < 256 := hb b (List.mem_cons_self _ _)
      have ih2 := ih (fun x hx => hb x (List.mem_cons_of_mem _ hx))
      calc b + 256 * intFromBytesLE rest
          < 256 + 256 * intFromBytesLE rest := by omega
        _ = 256 * (intFromBytesLE rest + 1) := by ring
        _ ≤ 256 * 256 ^ rest.length := Nat.mul_le_mul_left _ (Nat.succ_le_of_lt ih2)
        _ = 256 ^ (rest.length + 1) := (pow_succ 256 rest.length).symm ▸ by ring

theorem intFromBytesLE_pySlice_lt (data : List Nat) (hb : ∀ b ∈ data, b < 256)
    (a b : Nat) (h8 : b - a ≤ 8) : intFromBytesLE (pySlice data a b) < 2 ^ 64 := by
  have hsub : ∀ x ∈ pySlice data a b, x < 256 := by
    intro x hx
    exact hb x (List.drop_subset a data (List.take_subset _ _ hx))
  have hlen : (pySlice data a b).length ≤ 8 := by
    have := List.length_take_le (b - a) (data.drop a)
    exact le_trans this h8
  calc intFromBytesLE (pySlice data a b)
      < 256 ^ (pySlice data a b).length := intFromBytesLE_lt _ hsub
    _ ≤ 256 ^ 8 := Nat.pow_le_pow_right (by norm_num) hlen
    _ = 2 ^ 64 := by norm_num

/-! ## Claims -/

/-- C5: access evaluation is a pure deterministic function of
`(total_tokens, staked_amount)`: any two chain reads producing the same
totals produce the same `access_levels`; each tier is exactly its threshold
comparison (`alpha ↔ total_tokens ≥ 1000`, `raw_data ↔ staked ≥ 5000`,
`api ↔ total ≥ 10000`, `governance ↔ total ≥ 50000`); and at the boundary,
`total_tokens = 999` denies alpha while `1000` grants it. -/
theorem C5_access_levels_thresholds (b1 b2 : List Int) (s1 s2 : Option (List Nat))
    (ht : (check_access_level_pure b1 s1).total_tokens
            = (check_access_level_pure b2 s2).total_tokens)
    (hs : (check_access_level_pure b1 s1).staked_amount
            = (check_access_level_pure b2 s2).staked_amount) :
    (check_access_level_pure b1 s1).access_levels
        = (check_access_level_pure b2 s2).access_levels
    ∧ (∀ (b : List Int) (s : Option (List Nat)),
        (check_access_level_pure b s).access_levels.alpha_access
            = decide (1000 ≤ (check_access_level_pure b s).total_tokens)
        ∧ (check_access_level_pure b s).access_levels.raw_data_access
            = decide (5000 ≤ (check_access_level_pure b s).staked_amount)
        ∧ (check_access_level_pure b s).access_levels.api_access
            = decide (10000 ≤ (check_access_level_pure b s).total_tokens)
        ∧ (check_access_level_pure b s).access_levels.governance_access
            = decide (50000 ≤ (check_access_level_pure b s).total_tokens))
    ∧ (check_access_level_pure [999] none).access_levels.alpha_access = false
    ∧ (check_access_level_pure [1000] none).access_levels.alpha_access = true := by
  refine ⟨?_, fun b s => ⟨rfl, rfl, rfl, rfl⟩, by decide, by decide⟩
  rw [check_access_level_pure_levels, ht, hs, ← check_access_level_pure_levels]

theorem C5_access_levels_thresholds_witness :
    (check_access_level_pure [5] none).access_levels
        = (check_access_level_pure [2, 3] none).access_levels
    ∧ (check_access_level_pure [999] none).access_levels.alpha_access = false
    ∧ (check_access_level_pure [1000] none).access_levels.alpha_access = true := by
  have h := C5_access_levels_thresholds [5] [2, 3] none none (by decide) (by decide)
  exact ⟨h.1, h.2.2.1, h.2.2.2⟩

/-- C6 counterexample: the claim says `total_tokens` equals the sum of the
wallet's token-account balances and nothing else; for a wallet whose token
accounts sum to 100 and whose staking account holds 6000, the code computes
`total_tokens = 6100 ≠ 100` (token.py line 43 adds `staked_amount`). -/
theorem C6_total_tokens_counterexample :
    (check_access_level_pure [100] (some stakeBytes6000)).total_tokens
      ≠ List.sum [(100 : Int)] := by decide

/-- C6 amended: `total_tokens` used for access evaluation equals the sum of
the wallet's token-account balances for the configured mint PLUS the staked
amount, and the tiers are evaluated against that sum. -/
theorem C6_total_tokens_amended (balances : List Int) (sd : Option (List Nat)) :
    (check_access_level_pure balances sd).total_tokens
        = balances.sum + (check_access_level_pure balances sd).staked_amount
    ∧ (check_access_level_pure balances sd).access_levels
        = access_levels
            (balances.sum + (check_access_level_pure balances sd).staked_amount)
            ((check_access_level_pure balances sd).staked_amount) :=
  ⟨rfl, rfl⟩

/-- C7: access evaluation is monotone — increasing `total_tokens` or
`staked_amount` (holding the other fixed, or increasing both) never revokes
a granted tier. -/
theorem C7_access_monotone (t s t2 s2 : Int) (hT : t ≤ t2) (hS : s ≤ s2) :
    ((access_levels t s).alpha_access = true → (access_levels t2 s2).alpha_access = true)
    ∧ ((access_levels t s).raw_data_access = true →
        (access_levels t2 s2).raw_data_access = true)
    ∧ ((access_levels t s).api_access = true → (access_levels t2 s2).api_access = true)
    ∧ ((access_levels t s).governance_access = true →
        (access_levels t2 s2).governance_access = true) := by
  simp only [access_levels, decide_eq_true_eq]
  refine ⟨fun h => ?_, fun h => ?_, fun h => ?_, fun h => ?_⟩ <;> omega

theorem C7_access_monotone_witness :
    (access_levels 1500 6000).alpha_access = true
    ∧ (access_levels 1500 6000).raw_data_access = true :=
  ⟨(C7_access_monotone 1000 5000 1500 6000 (by decide) (by decide)).1 (by decide),
   (C7_access_monotone 1000 5000 1500 6000 (by decide) (by decide)).2.1 (by decide)⟩

/-- C9 counterexample: the claim says any input shorter than 24 bytes makes
decoding yield an error result; on a 10-byte account the code instead
silently parses (`_get_staking_info` returns parsed values, not `None`):
`amount` reads the first 8 bytes, `start_time` the remaining 2 bytes
(value 257), `last_claim` the empty slice (value 0). -/
theorem C9_short_data_counterexample :
    (List.replicate 10 1).length < 24
    ∧ get_staking_info (some (List.replicate 10 1))
        = some ⟨72340172838076673, 257, 0⟩ := by decide

/-- C9 amended: the layout is as claimed — bytes [0:8), [8:16), [16:24)
little-endian for `amount`, `start_time`, `last_claim`, each below `2^64`
for byte-valued input — but short input is not an error: Python slicing
truncates, each field is the little-endian value of the bytes available in
its range (zero when the range is empty, e.g. `last_claim = 0` whenever
fewer than 17 bytes are present), and `_get_staking_info` returns the
silently-parsed values. -/
theorem C9_parse_layout_amended (data : List Nat) (hb : ∀ b ∈ data, b < 256) :
    (parse_staking_data data).amount = intFromBytesLE ((data.drop 0).take 8)
    ∧ (parse_staking_data data).start_time = intFromBytesLE ((data.drop 8).take 8)
    ∧ (parse_staking_data data).last_claim = intFromBytesLE ((data.drop 16).take 8)
    ∧ (parse_staking_data data).amount < 2 ^ 64
    ∧ (parse_staking_data data).start_time < 2 ^ 64
    ∧ (parse_staking_data data).last_claim < 2 ^ 64
    ∧ (data.length ≤ 16 → (parse_staking_data data).last_claim = 0)
    ∧ get_staking_info (some data) = some (parse_staking_data data) := by
  refine ⟨rfl, rfl, rfl,
    intFromBytesLE_pySlice_lt data hb 0 8 (by norm_num),
    intFromBytesLE_pySlice_lt data hb 8 16 (by norm_num),
    intFromBytesLE_pySlice_lt data hb 16 24 (by norm_num),
    fun hlen => ?_, rfl⟩
  show intFromBytesLE (pySlice data 16 24) = 0
  rw [pySlice, List.drop_eq_nil_of_le hlen]
  rfl

theorem C9_parse_layout_amended_witness :
    (parse_staking_data (List.replicate 10 1)).amount
        = intFromBytesLE (((List.replicate 10 1).drop 0).take 8)
    ∧ (parse_staking_data (List.replicate 10 1)).amount < 2 ^ 64
    ∧ (parse_staking_data (List.replicate 10 1)).last_claim = 0 := by
  have h := C9_parse_layout_amended (List.replicate 10 1) (by decide)
  exact ⟨h.1, h.2.2.2.1, h.2.2.2.2.2.2.1 (by decide)⟩

/-- C3: at the failing input — a correctly-signed token whose `exp` (5) is
in the past of the verification time (10) — the code rejects with the
generic `Invalid API key` error, not the distinct `API key expired` one:
PyJWT's `decode` already validates `exp` and raises
`ExpiredSignatureError`, a subclass of the caught `InvalidTokenError`, so
the manual expired branch (middleware.py lines 71–75) is unreachable.  The
other two behaviors of the claim hold: a tampered signature yields
`Invalid API key`, and a valid unexpired token yields its
`wallet_address` unchanged. -/
theorem C3_credential_verification_behavior :
    verify_api_key ⟨⟨"wallet_abc", 5⟩, true⟩ 10 = .error ⟨401, "Invalid API key", []⟩
    ∧ verify_api_key ⟨⟨"wallet_abc", 100⟩, false⟩ 10
        = .error ⟨401, "Invalid API key", []⟩
    ∧ verify_api_key ⟨⟨"wallet_abc", 100⟩, true⟩ 10 = .ok "wallet_abc"
    ∧ "Invalid API key" ≠ "API key expired" :=
  ⟨rfl, rfl, rfl, by decide⟩

/-- C10: `get_analytics_data` performs no access-tier check — for every
valid timeframe and metric its result depends only on the stored metric
data, not on the calling wallet or any wallet's balance/stake (two runs
over states agreeing on metrics but with arbitrary chains, and even
different wallet arguments, coincide), and the result is a served analytics
payload, never an access-denied error. -/
theorem C10_analytics_wallet_independent (st1 st2 : ServiceState)
    (w1 w2 metric tf : String) (now : Int)
    (hm : st1.metrics = st2.metrics)
    (hv : tf = "24h" ∨ tf = "7d" ∨ tf = "30d") :
    get_analytics_data st1 w1 metric tf now = get_analytics_data st2 w2 metric tf now
    ∧ (get_analytics_data st1 w1 metric tf now).isServed = true := by
  constructor
  · simp only [get_analytics_data, hm]
  · simp only [get_analytics_data, if_pos hv, AnalyticsResult.isServed]

/-- A state whose wallet holds ample tokens and stake, and one whose wallet
holds nothing, agreeing on stored metrics. -/
def richState : ServiceState :=
  ⟨[("w", ⟨[20000], some stakeBytes6000⟩)], none, [], [], [("price", [(0, 5)])], []⟩

def brokeState : ServiceState :=
  ⟨[("w", ⟨[], none⟩)], none, [], [], [("price", [(0, 5)])], []⟩

theorem C10_analytics_wallet_independent_witness :
    get_analytics_data richState "w" "price" "24h" 86400
        = get_analytics_data brokeState "w" "price" "24h" 86400
    ∧ (get_analytics_data richState "w" "price" "24h" 86400).isServed = true :=
  C10_analytics_wallet_independent richState brokeState "w" "w" "price" "24h" 86400
    rfl (Or.inl rfl)

/-! ## Rate-limiter lemmas -/

theorem rateLimiterDispatch_counters (st : RLState) (c : String) (now : Nat)
    (r : HttpResponse) :
    (rateLimiterDispatch st c now r).2.2.counters
      = (windowKey c now, (lookupA st.counters (windowKey c now)).getD 0 + 1)
          :: st.counters := by
  by_cases h : 100 < (lookupA st.counters (windowKey c now)).getD 0 + 1 <;>
    simp [rateLimiterDispatch, redisIncr, h]

theorem rateLimiterDispatch_count (st : RLState) (c : String) (now : Nat)
    (r : HttpResponse) :
    (rateLimiterDispatch st c now r).2.1
      = (lookupA st.counters (windowKey c now)).getD 0 + 1 := by
  by_cases h : 100 < (lookupA st.counters (windowKey c now)).getD 0 + 1 <;>
    simp [rateLimiterDispatch, redisIncr, h]

theorem rateLimiterDispatch_admitted (st : RLState) (c : String) (now : Nat)
    (r : HttpResponse) :
    admitted (rateLimiterDispatch st c now r)
      = decide ((lookupA st.counters (windowKey c now)).getD 0 + 1 ≤ 100) := by
  by_cases h : 100 < (lookupA st.counters (windowKey c now)).getD 0 + 1
  · have h2 : ¬ ((lookupA st.counters (windowKey c now)).getD 0 + 1 ≤ 100) := by omega
    simp [rateLimiterDispatch, redisIncr, admitted, h, h2]
  · have h2 : (lookupA st.counters (windowKey c now)).getD 0 + 1 ≤ 100 := by omega
    simp [rateLimiterDispatch, redisIncr, admitted, h, h2]

theorem windowKey_next_ne (c : String) (now : Nat) :
    windowKey c now ≠ windowKey c (now + 60) := by
  intro hEq
  have h2 := congrArg Prod.snd hEq
  have h : (now + 60) / 60 = now / 60 + 1 := Nat.add_div_right now (by norm_num)
  simp only [windowKey, h] at h2
  omega

theorem rlIterate_lookup (c : String) (now : Nat) (st : RLState)
    (h0 : lookupA st.counters (windowKey c now) = none) :
    ∀ k : Nat, lookupA (rlIterate c now st k).counters (windowKey c now)
      = if k = 0 then none else some k := by
  intro k
  induction k with
  | zero => simpa using h0
  | succ k ih =>
      rw [rlIterate, rateLimiterDispatch_counters, lookupA_cons_self, ih]
      by_cases hk : k = 0 <;> simp [hk]

theorem rlIterate_lookup_other (c : String) (now : Nat) (st : RLState)
    (key2 : String × Nat) (hne : windowKey c now ≠ key2) :
    ∀ k : Nat, lookupA (rlIterate c now st k).counters key2 = lookupA st.counters key2 := by
  intro k
  induction k with
  | zero => rfl
  | succ k ih =>
      rw [rlIterate, rateLimiterDispatch_counters, lookupA_cons_ne _ _ _ _ hne, ih]

/-- C4: on every call the window counter for `(client_id, now div 60)` is
incremented — also on rejected calls — and the call is admitted iff the
post-increment count is at most 100; consequently, starting from a window
with no counter, the `(k+1)`-st call in that window is admitted iff
`k + 1 ≤ 100` (the first 100 admitted, the 101st and every later call
rejected), and after any number of such calls the first call of the next
window is admitted again. -/
theorem C4_rate_limiter_window (c : String) (now : Nat) (st : RLState)
    (h0 : lookupA st.counters (windowKey c now) = none)
    (h1 : lookupA st.counters (windowKey c (now + 60)) = none) :
    (∀ (s : RLState) (r : HttpResponse),
        admitted (rateLimiterDispatch s c now r)
            = decide ((lookupA s.counters (windowKey c now)).getD 0 + 1 ≤ 100)
        ∧ (rateLimiterDispatch s c now r).2.1
            = (lookupA s.counters (windowKey c now)).getD 0 + 1
        ∧ lookupA (rateLimiterDispatch s c now r).2.2.counters (windowKey c now)
            = some ((lookupA s.counters (windowKey c now)).getD 0 + 1))
    ∧ (∀ k : Nat,
        admitted (rateLimiterDispatch (rlIterate c now st k) c now ⟨200, []⟩)
          = decide (k + 1 ≤ 100))
    ∧ (∀ k : Nat,
        admitted (rateLimiterDispatch (rlIterate c now st k) c (now + 60) ⟨200, []⟩)
          = true) := by
  refine ⟨fun s r => ⟨rateLimiterDispatch_admitted s c now r,
      rateLimiterDispatch_count s c now r, ?_⟩, fun k => ?_, fun k => ?_⟩
  · rw [rateLimiterDispatch_counters, lookupA_cons_self]
  · rw [rateLimiterDispatch_admitted, rlIterate_lookup c now st h0 k]
    by_cases hk : k = 0 <;> simp [hk]
  · rw [rateLimiterDispatch_admitted,
      rlIterate_lookup_other c now st (windowKey c (now + 60)) (windowKey_next_ne c now) k,
      h1]
    rfl

def rlEmpty : RLState := ⟨[], []⟩

theorem C4_rate_limiter_window_witness :
    admitted (rateLimiterDispatch (rlIterate "alice" 0 rlEmpty 100) "alice" 0 ⟨200, []⟩)
        = false
    ∧ admitted (rateLimiterDispatch (rlIterate "alice" 0 rlEmpty 42) "alice" 0 ⟨200, []⟩)
        = true
    ∧ admitted (rateLimiterDispatch (rlIterate "alice" 0 rlEmpty 100) "alice" 60 ⟨200, []⟩)
        = true := by
  have h := C4_rate_limiter_window "alice" 0 rlEmpty rfl rfl
  refine ⟨?_, ?_, h.2.2 100⟩
  · rw [h.2.1 100]; rfl
  · rw [h.2.1 42]; rfl

/-- The lookups a `setHeader` leaves intact. -/
theorem lookupA_filter_ne (l : List (String × String)) (k k2 : String) (h : k ≠ k2) :
    lookupA (l.filter (fun kv => decide (kv.1 ≠ k))) k2 = lookupA l k2 := by
  induction l with
  | nil => rfl
  | cons x xs ih =>
      obtain ⟨a, b⟩ := x
      by_cases hx : a = k
      · have hx2 : a ≠ k2 := by rw [hx]; exact h
        have hpred : decide (((a, b) : String × String).1 ≠ k) = false := by simp [hx]
        rw [List.filter_cons, hpred, if_neg (by decide), ih,
          lookupA_cons_ne _ _ _ _ hx2]
      · have hpred : decide (((a, b) : String × String).1 ≠ k) = true := by simp [hx]
        rw [List.filter_cons, hpred, if_pos rfl]
        by_cases hy : a = k2
        · subst hy
          rw [lookupA_cons_self, lookupA_cons_self]
        · rw [lookupA_cons_ne _ _ _ _ hy, lookupA_cons_ne _ _ _ _ hy, ih]

theorem lookupA_setHeader_self (r : HttpResponse) (k v : String) :
    lookupA (setHeader r k v).headers k = some v := by
  simp [setHeader, lookupA]

theorem lookupA_setHeader_ne (r : HttpResponse) (k k2 v : String) (h : k ≠ k2) :
    lookupA (setHeader r k v).headers k2 = lookupA r.headers k2 := by
  simp only [setHeader]
  rw [lookupA_cons_ne _ _ _ _ h, lookupA_filter_ne _ _ _ h]

def c8State : RLState := ⟨[(("c", 0), 100)], []⟩

/-- C8 counterexample: the claim says every response, including
rate-limit-rejected ones, carries the three `X-RateLimit-*` headers; at a
store whose window counter already reads 100, the next request is rejected
by raising `HTTPException(429)` at middleware.py line 40 — before the
header-attaching code at lines 47–53 runs — so the rejected response
carries none of the three headers. -/
theorem C8_rejected_no_headers_counterexample :
    (rateLimiterDispatch c8State "c" 0 ⟨200, []⟩).1
        = .error ⟨429, "Rate limit exceeded", []⟩
    ∧ ((outcomeHeaders (rateLimiterDispatch c8State "c" 0 ⟨200, []⟩).1).any
        (fun kv => kv.1 == "X-RateLimit-Limit")) = false
    ∧ ((outcomeHeaders (rateLimiterDispatch c8State "c" 0 ⟨200, []⟩).1).any
        (fun kv => kv.1 == "X-RateLimit-Remaining")) = false
    ∧ ((outcomeHeaders (rateLimiterDispatch c8State "c" 0 ⟨200, []⟩).1).any
        (fun kv => kv.1 == "X-RateLimit-Reset")) = false :=
  ⟨rfl, rfl, rfl, rfl⟩

/-- C8 amended: only admitted responses carry the rate-limit headers —
with `X-RateLimit-Limit = 100`, `X-RateLimit-Remaining =
max(0, 100 - count_after_increment)` and `X-RateLimit-Reset =
(now div 60)·60 + 60` as claimed — while a rate-limit-rejected request
raises a 429 `HTTPException` carrying no headers at all. -/
theorem C8_headers_amended (st : RLState) (c : String) (now : Nat)
    (inner : HttpResponse) :
    ((lookupA st.counters (windowKey c now)).getD 0 + 1 ≤ 100 →
      ∃ resp, (rateLimiterDispatch st c now inner).1 = .ok resp
        ∧ lookupA resp.headers "X-RateLimit-Limit" = some "100"
        ∧ lookupA resp.headers "X-RateLimit-Remaining"
            = some (toString (100 - ((lookupA st.counters (windowKey c now)).getD 0 + 1)))
        ∧ lookupA resp.headers "X-RateLimit-Reset"
            = some (toString (now / 60 * 60 + 60)))
    ∧ (100 < (lookupA st.counters (windowKey c now)).getD 0 + 1 →
      (rateLimiterDispatch st c now inner).1 = .error ⟨429, "Rate limit exceeded", []⟩
      ∧ outcomeHeaders (rateLimiterDispatch st c now inner).1 = []) := by
  constructor
  · intro hadm
    have hnot : ¬ (100 < (lookupA st.counters (windowKey c now)).getD 0 + 1) := by omega
    refine ⟨setHeader
        (setHeader (setHeader inner "X-RateLimit-Limit" (toString 100))
          "X-RateLimit-Remaining"
          (toString (100 - ((lookupA st.counters (windowKey c now)).getD 0 + 1))))
        "X-RateLimit-Reset" (toString (now / 60 * 60 + 60)), ?_, ?_, ?_, ?_⟩
    · simp [rateLimiterDispatch, redisIncr, hnot]
    · rw [lookupA_setHeader_ne _ _ _ _ (by decide),
        lookupA_setHeader_ne _ _ _ _ (by decide), lookupA_setHeader_self]
      rfl
    · rw [lookupA_setHeader_ne _ _ _ _ (by decide), lookupA_setHeader_self]
    · rw [lookupA_setHeader_self]
  · intro hrej
    constructor <;> simp [rateLimiterDispatch, redisIncr, hrej, outcomeHeaders]

theorem C8_headers_amended_witness :
    lookupA (outcomeHeaders (rateLimiterDispatch rlEmpty "c" 30 ⟨200, []⟩).1)
        "X-RateLimit-Limit" = some "100"
    ∧ lookupA (outcomeHeaders (rateLimiterDispatch rlEmpty "c" 30 ⟨200, []⟩).1)
        "X-RateLimit-Remaining" = some "99"
    ∧ lookupA (outcomeHeaders (rateLimiterDispatch rlEmpty "c" 30 ⟨200, []⟩).1)
        "X-RateLimit-Reset" = some "60"
    ∧ (rateLimiterDispatch c8State "c" 0 ⟨200, []⟩).1
        = .error ⟨429, "Rate limit exceeded", []⟩ := by
  obtain ⟨resp, h1, h2, h3, h4⟩ :=
    (C8_headers_amended rlEmpty "c" 30 ⟨200, []⟩).1 (by decide)
  have h5 := ((C8_headers_amended c8State "c" 0 ⟨200, []⟩).2 (by decide)).1
  rw [h1]
  exact ⟨h2, h3, h4, h5⟩

/-! ## Data-access claims -/

/-- A fetch oracle standing in for the (absent) fetcher bodies. -/
def c1Fetch : String → Params → Payload := fun _ _ => [("data", "github_payload")]

/-- The C1 scenario's state: wallet `w` holds 11800 in token accounts and
200 staked, hence `total_tokens = 12000`, `staked_amount = 200`. -/
def c1State : ServiceState :=
  ⟨[("w", ⟨[11800], some stakeBytes200⟩)], none, [], [], [], []⟩

/-- C1 (code bug): for the wallet with `total_tokens = 12000` and
`staked_amount = 200 < 5000`, the service layer denies with the
insufficient-stake error and performs no fetch, cache write or log append
(the state is returned unchanged) — but the route responds 500, not the
claimed 403: the handler raises `HTTPException(403, result["error"])`
inside its own `try`, and its `except Exception` catches that exception
(`HTTPException` subclasses `Exception`) and re-raises
`HTTPException(500, str(e))`. -/
theorem C1_insufficient_stake_route_behavior :
    check_access_level c1State "w"
        = .ok ⟨12000, 200, ⟨true, false, true, false⟩⟩
    ∧ (get_raw_data c1Fetch c1State "w" "github" none 0).1
        = .err "Insufficient token stake for raw data access"
    ∧ (get_data c1Fetch c1State "github" "w" none 0).1
        = .error ⟨500, "403: Insufficient token stake for raw data access", []⟩
    ∧ (get_data c1Fetch c1State "github" "w" none 0).2 = c1State :=
  ⟨rfl, rfl, rfl, rfl⟩

/-- State and oracle of the C2 two-call scenario: wallet `w` holds 1000 in
token accounts and 6000 staked, so `raw_data_access` is granted. -/
def c2State : ServiceState :=
  ⟨[("w", ⟨[1000], some stakeBytes6000⟩)], none, [], [], [], []⟩

def c2Fetch : String → Params → Payload := fun _ _ => [("repos", "42")]

/-- C2 counterexample: the claim says two granted calls with the same
`(data_type, params)` within the 300 s TTL append exactly two access-log
entries; in the code a cache hit returns at data_access.py line 44 before
the `_log_data_access` call at line 57, so the two calls (at times 0 and
100) leave exactly ONE access-log entry — the fetcher-count half (exactly
one invocation) does hold. -/
theorem C2_cache_hit_not_logged_counterexample :
    ((get_raw_data c2Fetch (get_raw_data c2Fetch c2State "w" "github" none 0).2
        "w" "github" none 100).2.accessLogs.length = 1)
    ∧ ¬ ((get_raw_data c2Fetch (get_raw_data c2Fetch c2State "w" "github" none 0).2
        "w" "github" none 100).2.accessLogs.length = 2)
    ∧ ((get_raw_data c2Fetch (get_raw_data c2Fetch c2State "w" "github" none 0).2
        "w" "github" none 100).2.fetchCalls.length = 1) := by decide

/-- C2 amended: for a wallet with `raw_data_access`, a successful freshly
fetched call appends exactly one access-log entry (newest-10000 ring
semantics) and invokes the fetcher exactly once, while a call served from
cache within the 300 s TTL returns the fetched payload verbatim and appends
no log entry and performs no fetch: two calls with the same
`(data_type, params)` within the TTL append exactly one entry with the
fetcher invoked exactly once across both. -/
theorem C2_access_log_amended (fetch : String → Params → Payload)
    (st : ServiceState) (wallet data_type : String) (params : Option Params)
    (now now2 : Int) (info : AccessInfo)
    (hacc : check_access_level st wallet = .ok info)
    (hraw : info.access_levels.raw_data_access = true)
    (hmiss : cacheGet st.cache (generate_cache_key data_type params) now = none)
    (hdt : fetchable data_type = true)
    (h2 : now ≤ now2) (h3 : now2 < now + 300) :
    ((get_raw_data fetch st wallet data_type params now).2.accessLogs
        = (⟨wallet, data_type, params, now⟩ :: st.accessLogs).take 10000)
    ∧ ((get_raw_data fetch st wallet data_type params now).2.fetchCalls
        = (data_type, params.getD []) :: st.fetchCalls)
    ∧ ((get_raw_data fetch st wallet data_type params now).1
        = .payload (fetch data_type (params.getD [])))
    ∧ ((get_raw_data fetch (get_raw_data fetch st wallet data_type params now).2
          wallet data_type params now2).1
        = .payload (fetch data_type (params.getD [])))
    ∧ ((get_raw_data fetch (get_raw_data fetch st wallet data_type params now).2
          wallet data_type params now2).2
        = (get_raw_data fetch st wallet data_type params now).2) := by
  have hne : ¬ (info.access_levels.raw_data_access = false) := by simp [hraw]
  have h1 : get_raw_data fetch st wallet data_type params now
      = (.payload (fetch data_type (params.getD [])),
         { st with
           fetchCalls := (data_type, params.getD []) :: st.fetchCalls
           cache := (generate_cache_key data_type params,
               (fetch data_type (params.getD []), now + 300)) :: st.cache
           accessLogs :=
             (⟨wallet, data_type, params, now⟩ :: st.accessLogs).take 10000 }) := by
    simp only [get_raw_data, hacc]
    rw [if_neg hne]
    simp only [hmiss]
    rw [if_pos hdt]
  have hacc2 : check_access_level
      ({ st with
         fetchCalls := (data_type, params.getD []) :: st.fetchCalls
         cache := (generate_cache_key data_type params,
             (fetch data_type (params.getD []), now + 300)) :: st.cache
         accessLogs :=
           (⟨wallet, data_type, params, now⟩ :: st.accessLogs).take 10000 } : ServiceState)
      wallet = .ok info := hacc
  have hhit : cacheGet
      ((generate_cache_key data_type params,
          (fetch data_type (params.getD []), now + 300)) :: st.cache)
      (generate_cache_key data_type params) now2
      = some (fetch data_type (params.getD [])) := by
    simp only [cacheGet, lookupA_cons_self]
    rw [if_pos h3]
  have h4 : get_raw_data fetch
      ({ st with
         fetchCalls := (data_type, params.getD []) :: st.fetchCalls
         cache := (generate_cache_key data_type params,
             (fetch data_type (params.getD []), now + 300)) :: st.cache
         accessLogs :=
           (⟨wallet, data_type, params, now⟩ :: st.accessLogs).take 10000 } : ServiceState)
      wallet data_type params now2
      = (.payload (fetch data_type (params.getD [])),
         { st with
           fetchCalls := (data_type, params.getD []) :: st.fetchCalls
           cache := (generate_cache_key data_type params,
               (fetch data_type (params.getD []), now + 300)) :: st.cache
           accessLogs :=
             (⟨wallet, data_type, params, now⟩ :: st.accessLogs).take 10000 }) := by
    simp only [get_raw_data, hacc2]
    rw [if_neg hne]
    simp only [hhit]
  rw [h1]
  exact ⟨rfl, rfl, rfl, by rw [h4], by rw [h4]⟩

theorem C2_access_log_amended_witness :
    ((get_raw_data c2Fetch c2State "w" "github" none 0).2.accessLogs
        = [⟨"w", "github", none, 0⟩])
    ∧ ((get_raw_data c2Fetch c2State "w" "github" none 0).2.fetchCalls
        = [("github", [])])
    ∧ ((get_raw_data c2Fetch (get_raw_data c2Fetch c2State "w" "github" none 0).2
          "w" "github" none 100).2
        = (get_raw_data c2Fetch c2State "w" "github" none 0).2) := by
  have h := C2_access_log_amended c2Fetch c2State "w" "github" none 0 100
      (check_access_level_pure [1000] (some stakeBytes6000)) rfl (by decide) rfl rfl
      (by decide) (by decide)
  exact ⟨h.1, h.2.1, h.2.2.2.2⟩

end Cynix
